import Mathlib

/-!
Shallow embedding of the credential and schedule store of `db_init.py`
(the table schema created in `run()` together with the `do_POST` handlers of
`APIHandler`).  Time is modelled as natural-number seconds; the relational
tables are lists of rows; the SQLite/PostgreSQL connection is modelled by a
boolean `dbUp` (`get_db_connection()` returned a connection or `None`).
The one-way digest of the access gate is a parameter `hash`, mirroring
`hashlib.sha256(...).hexdigest()` applied to both the candidate and the
master secret.
-/

/-- Row of the `secret_keys` table (`CREATE TABLE` at db_init.py lines 15-24).
The schema declares `id SERIAL PRIMARY KEY` (synthetic, modelled by list
position) and puts NO uniqueness constraint on `private_key`. -/
structure SecretKeyRow where
  private_key : String
  source : String
  device : String
  status : String
  created_at : Nat
deriving DecidableEq, Repr

/-- Row of the `permanent_verified` table (lines 34-40): `address TEXT PRIMARY
KEY, verified_at TIMESTAMP, expires_at TIMESTAMP` (nullable). -/
structure PermanentVerifiedRow where
  address : String
  verified_at : Nat
  expires_at : Option Nat
deriving DecidableEq, Repr

/-- Row of the `auto_claim_schedule` table (lines 42-51): composite
`PRIMARY KEY (address, network)`. -/
structure AutoClaimRow where
  address : String
  network : String
  enabled : Bool
  last_claim : Nat
  next_claim_time : Nat
deriving DecidableEq, Repr

/-- Row of the `disabled_keys` table (lines 53-58): `key_address TEXT PRIMARY
KEY, reason TEXT`. -/
structure DisabledKeyRow where
  key_address : String
  reason : String
deriving DecidableEq, Repr

/-- Row of the `app_settings` table (lines 26-32): `key TEXT UNIQUE`. -/
structure AppSettingRow where
  key : String
  value : String
deriving DecidableEq, Repr

/-- The whole record store: the five tables created by `run()`. -/
structure Store where
  secret_keys : List SecretKeyRow
  permanent_verified : List PermanentVerifiedRow
  auto_claim_schedule : List AutoClaimRow
  disabled_keys : List DisabledKeyRow
  app_settings : List AppSettingRow
deriving DecidableEq, Repr

/-- A store with all five tables empty. -/
def emptyStore : Store := ⟨[], [], [], [], []⟩

/-- Python's `str.lower()` on the characters of the string (the handlers
only ever lower ASCII addresses, networks and action words, where
`Char.toLower` agrees with Python). -/
def pyLower (s : String) : String := ⟨s.data.map Char.toLower⟩

/-- Python's `str.startswith(pre)`. -/
def pyStartsWith (s pre : String) : Bool := pre.data.isPrefixOf s.data

/-- Python's truthiness test `not s` on a string: true iff the string is
empty. -/
def pyIsEmpty (s : String) : Bool := s.data.isEmpty

/-- `MASTER_PASSWORD = hashlib.sha256('963050'.encode()).hexdigest()`
(line 134); the digest function is a parameter of the model. -/
def MASTER_PASSWORD (hash : String → String) : String := hash "963050"

/-- `validate_password` (lines 137-139): digest the candidate and compare
with the stored digest. -/
def validate_password (hash : String → String) (password : String) : Bool :=
  hash password == MASTER_PASSWORD hash

/-- Plain INSERT into `secret_keys` (line 524).  The handler issues
`INSERT OR IGNORE`, but since the schema (lines 15-24) has no uniqueness
constraint on `private_key`, the OR IGNORE clause can never fire: every
insert adds a row and `cursor.rowcount` is 1. -/
def insertSecretKey (row : SecretKeyRow) (s : Store) : Store :=
  { s with secret_keys := s.secret_keys ++ [row] }

/-- Outcome of `/api/save-keys` (lines 487-561). -/
inductive SaveKeysResult where
  /-- HTTP 400, `Invalid keys format`. -/
  | invalidFormat : SaveKeysResult
  /-- HTTP 500, `Database connection failed`. -/
  | dbConnectionFailed : SaveKeysResult
  /-- HTTP 200, `{'success': True, 'saved': saved}`. -/
  | saved (count : Nat) : SaveKeysResult
deriving DecidableEq, Repr

/-- Handler of `/api/save-keys` (lines 487-561): reject an empty batch,
then for each non-empty key run the insert of line 524 and count a save
whenever `cursor.rowcount > 0` — which, absent a uniqueness constraint on
`private_key`, is every time. -/
def apiSaveKeys (now : Nat) (keys : List String) (source device status : String)
    (dbUp : Bool) (s : Store) : SaveKeysResult × Store :=
  if keys.isEmpty then (.invalidFormat, s)
  else if !dbUp then (.dbConnectionFailed, s)
  else
    let r := keys.foldl
      (fun acc key =>
        if key.length > 0 then
          (acc.1 + 1, insertSecretKey ⟨key, source, device, status, now⟩ acc.2)
        else acc)
      ((0 : Nat), s)
    (.saved r.1, r.2)

/-- One entry of the `/api/fetch-keys` response (lines 604-611). -/
structure FetchedKey where
  key : String
  added : Nat
  source : String
  device : String
  status : String
deriving DecidableEq, Repr

/-- Insert a row into a list sorted by `created_at` descending. -/
def insertByCreatedDesc (x : SecretKeyRow) : List SecretKeyRow → List SecretKeyRow
  | [] => [x]
  | y :: ys => if x.created_at ≥ y.created_at then x :: y :: ys else y :: insertByCreatedDesc x ys

/-- `ORDER BY created_at DESC` of the SELECT at lines 595-599. -/
def sortByCreatedDesc (l : List SecretKeyRow) : List SecretKeyRow :=
  l.foldr insertByCreatedDesc []

/-- Projection of a `secret_keys` row to a response entry (lines 604-611). -/
def toFetchedKey (r : SecretKeyRow) : FetchedKey :=
  ⟨r.private_key, r.created_at, r.source, r.device, r.status⟩

/-- Outcome of `/api/fetch-keys` (lines 564-640). -/
inductive FetchKeysResult where
  /-- HTTP 401, `Invalid password`. -/
  | unauthorized : FetchKeysResult
  /-- HTTP 200, `{'keys': keys}`. -/
  | keysList (keys : List FetchedKey) : FetchKeysResult
deriving DecidableEq, Repr

/-- Handler of `/api/fetch-keys` (lines 564-640): gate first; with the gate
passed but no connection, answer HTTP 200 with an empty list (lines 583-591);
otherwise return every `secret_keys` row, newest first. -/
def apiFetchKeys (hash : String → String) (password : String)
    (dbUp : Bool) (s : Store) : FetchKeysResult × Store :=
  if !(validate_password hash password) then (.unauthorized, s)
  else if !dbUp then (.keysList [], s)
  else (.keysList ((sortByCreatedDesc s.secret_keys).map toFetchedKey), s)

/-- Outcome of `/api/clear-keys` (lines 643-702). -/
inductive ClearKeysResult where
  /-- HTTP 401, `Invalid password`. -/
  | unauthorized : ClearKeysResult
  /-- HTTP 500, `Database connection failed`. -/
  | dbConnectionFailed : ClearKeysResult
  /-- HTTP 200, `{'success': True, 'deleted': deleted}`. -/
  | cleared (deleted : Nat) : ClearKeysResult
deriving DecidableEq, Repr

/-- Handler of `/api/clear-keys` (lines 643-702): gate first, then
`DELETE FROM secret_keys` and report `cursor.rowcount`, the number of rows
the DELETE removed. -/
def apiClearKeys (hash : String → String) (password : String)
    (dbUp : Bool) (s : Store) : ClearKeysResult × Store :=
  if !(validate_password hash password) then (.unauthorized, s)
  else if !dbUp then (.dbConnectionFailed, s)
  else (.cleared s.secret_keys.length, { s with secret_keys := [] })

/-- Outcome of `/api/check-key-status` (lines 704-750). -/
inductive CheckKeyStatusResult where
  /-- HTTP 400, `Address required`. -/
  | addressRequired : CheckKeyStatusResult
  /-- HTTP 500, `DB Error`. -/
  | dbError : CheckKeyStatusResult
  /-- HTTP 200, `{'disabled': disabled, 'address': address}`. -/
  | statusOf (disabled : Bool) (address : String) : CheckKeyStatusResult
deriving DecidableEq, Repr

/-- The WHERE clause `key_address = ?` used by the `disabled_keys`
lookups and deletes (lines 730 and 793). -/
def dkKeyed (addr : String) (r : DisabledKeyRow) : Bool := r.key_address == addr

/-- Handler of `/api/check-key-status` (lines 704-750): lowercase the
address, require it non-empty (no other format check), then report whether a
`disabled_keys` row with that `key_address` exists.  Read-only. -/
def apiCheckKeyStatus (address : String) (dbUp : Bool) (s : Store) :
    CheckKeyStatusResult :=
  let addr := pyLower address
  if pyIsEmpty addr then .addressRequired
  else if !dbUp then .dbError
  else .statusOf (s.disabled_keys.any (dkKeyed addr)) addr

/-- `INSERT ... ON CONFLICT (key_address) DO NOTHING` (lines 782-786):
append a marker only when none with this address exists. -/
def insertDisabledIfAbsent (addr reason : String) (l : List DisabledKeyRow) :
    List DisabledKeyRow :=
  if l.any (dkKeyed addr) then l else l ++ [⟨addr, reason⟩]

/-- Outcome of `/api/toggle-key-status` (lines 752-813). -/
inductive ToggleKeyStatusResult where
  /-- HTTP 400, `Address and action required`. -/
  | badRequest : ToggleKeyStatusResult
  /-- HTTP 500, `DB Error`. -/
  | dbError : ToggleKeyStatusResult
  /-- HTTP 200, `{'success': True, 'status': status, 'address': address}`. -/
  | toggled (status : String) (address : String) : ToggleKeyStatusResult
deriving DecidableEq, Repr

/-- Handler of `/api/toggle-key-status` (lines 752-813): `disable` inserts a
`disabled_keys` marker if absent; `enable` deletes any marker with this
address. -/
def apiToggleKeyStatus (address action : String) (dbUp : Bool) (s : Store) :
    ToggleKeyStatusResult × Store :=
  let addr := pyLower address
  let act := pyLower action
  if pyIsEmpty addr || (act != "enable" && act != "disable") then (.badRequest, s)
  else if !dbUp then (.dbError, s)
  else if act == "disable" then
    (.toggled "disabled" addr,
      { s with disabled_keys := insertDisabledIfAbsent addr "Disabled by user" s.disabled_keys })
  else
    (.toggled "enabled" addr,
      { s with disabled_keys := s.disabled_keys.filter (fun r => !(dkKeyed addr r)) })

/-- The conflict target `address` of the `permanent_verified` upsert
(line 184). -/
def pvKeyed (addr : String) (r : PermanentVerifiedRow) : Bool := r.address == addr

/-- `INSERT INTO permanent_verified ... ON CONFLICT (address) DO UPDATE SET
verified_at = CURRENT_TIMESTAMP, expires_at = NULL` (lines 181-186): upsert
keyed by address, refreshing the timestamp and clearing the expiry on
conflict. -/
def upsertPermanentVerified (addr : String) (now : Nat)
    (l : List PermanentVerifiedRow) : List PermanentVerifiedRow :=
  if l.any (pvKeyed addr) then
    l.map (fun r =>
      if pvKeyed addr r then { r with verified_at := now, expires_at := none } else r)
  else l ++ [⟨addr, now, none⟩]

/-- Insert into a list of (address, verified_at) pairs sorted by
`verified_at` descending. -/
def insertByVerifiedDesc (x : String × Nat) : List (String × Nat) → List (String × Nat)
  | [] => [x]
  | y :: ys => if x.2 ≥ y.2 then x :: y :: ys else y :: insertByVerifiedDesc x ys

/-- `SELECT address, verified_at FROM permanent_verified ORDER BY verified_at
DESC` (line 201). -/
def listPermanentDesc (l : List PermanentVerifiedRow) : List (String × Nat) :=
  (l.map (fun r => (r.address, r.verified_at))).foldr insertByVerifiedDesc []

/-- Outcome of `/api/permanent-verified` (lines 161-224). -/
inductive PermanentVerifiedResult where
  /-- HTTP 500, from `raise ValueError('Invalid address')`. -/
  | invalidAddress : PermanentVerifiedResult
  /-- HTTP 500, from `raise ValueError('Database connection failed')`. -/
  | dbConnectionFailed : PermanentVerifiedResult
  /-- HTTP 200, address marked permanently verified. -/
  | added : PermanentVerifiedResult
  /-- HTTP 200, the list of (address, verified_at) pairs. -/
  | listed (entries : List (String × Nat)) : PermanentVerifiedResult
  /-- Unrecognized action: the handler sends no response at all. -/
  | noResponse : PermanentVerifiedResult
deriving DecidableEq, Repr

/-- Handler of `/api/permanent-verified` (lines 161-224): lowercase the
address, require it non-empty and starting with `0x` before any store
access, then upsert (action `add`) or list (action `list`). -/
def apiPermanentVerified (now : Nat) (address action : String)
    (dbUp : Bool) (s : Store) : PermanentVerifiedResult × Store :=
  let addr := pyLower address
  if pyIsEmpty addr || !(pyStartsWith addr "0x") then (.invalidAddress, s)
  else if !dbUp then (.dbConnectionFailed, s)
  else if action == "add" then
    (.added, { s with permanent_verified := upsertPermanentVerified addr now s.permanent_verified })
  else if action == "list" then (.listed (listPermanentDesc s.permanent_verified), s)
  else (.noResponse, s)

/-- The fixed interval `timedelta(days=1, hours=0, minutes=12)` of line 255,
in seconds. -/
def nextClaimDelta : Nat := 86400 + 12 * 60

/-- The composite conflict target `(address, network)` of the
`auto_claim_schedule` upsert (line 248). -/
def acsKeyed (a n : String) (r : AutoClaimRow) : Bool :=
  r.address == a && r.network == n

/-- `INSERT INTO auto_claim_schedule ... ON CONFLICT (address, network) DO
UPDATE SET enabled = EXCLUDED.enabled, next_claim_time =
EXCLUDED.next_claim_time` (lines 245-256): on conflict only `enabled` and
`next_claim_time` are overwritten; `last_claim` and everything else keep
their stored values. -/
def upsertAutoClaimSchedule (row : AutoClaimRow) (l : List AutoClaimRow) :
    List AutoClaimRow :=
  if l.any (acsKeyed row.address row.network) then
    l.map (fun r =>
      if acsKeyed row.address row.network r then
        { r with enabled := row.enabled, next_claim_time := row.next_claim_time }
      else r)
  else l ++ [row]

/-- Outcome of `/api/auto-claim-schedule` (lines 226-279). -/
inductive AutoClaimScheduleResult where
  /-- HTTP 500, from `raise ValueError('Invalid address')`. -/
  | invalidAddress : AutoClaimScheduleResult
  /-- HTTP 500, from `raise ValueError('Network must be celo or fuse')`. -/
  | invalidNetwork : AutoClaimScheduleResult
  /-- HTTP 200, auto-claim enabled. -/
  | enabled : AutoClaimScheduleResult
deriving DecidableEq, Repr

/-- Handler of `/api/auto-claim-schedule` (lines 226-279): lowercase address
and network, require the `0x` address form, require network in
`['celo', 'fuse']`, then upsert the schedule row with `enabled = True`,
`last_claim = now`, `next_claim_time = now + nextClaimDelta`.  When
`get_db_connection()` yields nothing the handler silently skips the write
and still answers success (`if conn:` at line 243 has no else branch). -/
def apiAutoClaimSchedule (now : Nat) (address network : String)
    (dbUp : Bool) (s : Store) : AutoClaimScheduleResult × Store :=
  let addr := pyLower address
  let net := pyLower network
  if pyIsEmpty addr || !(pyStartsWith addr "0x") then (.invalidAddress, s)
  else if net != "celo" && net != "fuse" then (.invalidNetwork, s)
  else if dbUp then
    (.enabled, { s with auto_claim_schedule :=
      upsertAutoClaimSchedule ⟨addr, net, true, now, now + nextClaimDelta⟩ s.auto_claim_schedule })
  else (.enabled, s)

/-! ### Theorems about the claims -/

/-- Claim C1 (code behaviour at the spec's failing input): on an empty
store, `submit(["k1","k1","k2"])` reports `acceptedCount = 3` and stores a
second row whose `private_key` is again `"k1"`.  The `secret_keys` schema
has no uniqueness constraint on `private_key`, so the handler's
`INSERT OR IGNORE` (whose comment promises deduplication via a UNIQUE
constraint) never skips a duplicate. -/
theorem C1_no_dedup_eval :
    apiSaveKeys 0 ["k1", "k1", "k2"] "batch-claim" "Unknown Device" "success" true emptyStore =
      (SaveKeysResult.saved 3,
       { emptyStore with secret_keys :=
          [⟨"k1", "batch-claim", "Unknown Device", "success", 0⟩,
           ⟨"k1", "batch-claim", "Unknown Device", "success", 0⟩,
           ⟨"k2", "batch-claim", "Unknown Device", "success", 0⟩] }) := by
  decide

/-- Claim C3: whenever the gate check succeeds but the store is
unreachable, `fetchAll` answers success with an empty list of keys and the
store is untouched. -/
theorem C3_degraded_read (hash : String → String) (password : String) (s : Store)
    (h : validate_password hash password = true) :
    apiFetchKeys hash password false s = (FetchKeysResult.keysList [], s) := by
  simp [apiFetchKeys, h]

/-- Witness for C3 at the concrete master secret with the identity digest. -/
theorem C3_degraded_read_witness :
    validate_password id "963050" = true ∧
    apiFetchKeys id "963050" false emptyStore = (FetchKeysResult.keysList [], emptyStore) :=
  ⟨by decide, C3_degraded_read id "963050" emptyStore (by decide)⟩

/-- Claim C4: with a secret that does not validate against the stored
digest, both `fetchAll` and `purgeAll` answer `Unauthorized` and return the
store exactly as it was, whatever the connection state. -/
theorem C4_gate_unauthorized (hash : String → String) (password : String)
    (dbUp : Bool) (s : Store) (h : validate_password hash password = false) :
    apiFetchKeys hash password dbUp s = (FetchKeysResult.unauthorized, s) ∧
    apiClearKeys hash password dbUp s = (ClearKeysResult.unauthorized, s) := by
  constructor <;> simp [apiFetchKeys, apiClearKeys, h]

/-- Witness for C4 with a concrete wrong secret. -/
theorem C4_gate_unauthorized_witness :
    validate_password id "wrong" = false ∧
    apiFetchKeys id "wrong" true emptyStore = (FetchKeysResult.unauthorized, emptyStore) ∧
    apiClearKeys id "wrong" true emptyStore = (ClearKeysResult.unauthorized, emptyStore) :=
  ⟨by decide,
   (C4_gate_unauthorized id "wrong" true emptyStore (by decide)).1,
   (C4_gate_unauthorized id "wrong" true emptyStore (by decide)).2⟩

/-- Claim C5: a successful `purgeAll` empties the `secret_keys` table,
reports exactly the number of rows that were removed, and leaves the
`disabled_keys`, `permanent_verified`, `auto_claim_schedule` and
`app_settings` tables unchanged. -/
theorem C5_purge_frame (hash : String → String) (password : String) (s : Store)
    (h : validate_password hash password = true) :
    (apiClearKeys hash password true s).1 = ClearKeysResult.cleared s.secret_keys.length ∧
    (apiClearKeys hash password true s).2.secret_keys = [] ∧
    (apiClearKeys hash password true s).2.disabled_keys = s.disabled_keys ∧
    (apiClearKeys hash password true s).2.permanent_verified = s.permanent_verified ∧
    (apiClearKeys hash password true s).2.auto_claim_schedule = s.auto_claim_schedule ∧
    (apiClearKeys hash password true s).2.app_settings = s.app_settings := by
  simp [apiClearKeys, h]

/-- Witness for C5 on a store holding one row in every table. -/
theorem C5_purge_frame_witness :
    validate_password id "963050" = true ∧
    (apiClearKeys id "963050" true
        ⟨[⟨"k1", "s", "d", "ok", 3⟩], [⟨"0xa", 1, none⟩],
         [⟨"0xa", "celo", true, 1, 2⟩], [⟨"0xa", "r"⟩], [⟨"k", "v"⟩]⟩).1 =
      ClearKeysResult.cleared 1 :=
  ⟨by decide,
   (C5_purge_frame id "963050"
      ⟨[⟨"k1", "s", "d", "ok", 3⟩], [⟨"0xa", 1, none⟩],
       [⟨"0xa", "celo", true, 1, 2⟩], [⟨"0xa", "r"⟩], [⟨"k", "v"⟩]⟩ (by decide)).1⟩

/-- Claim C7: when the lowercased network is outside the closed enumeration
`{celo, fuse}`, `registerSchedule` leaves the store exactly as it was and
does not answer success. -/
theorem C7_rejected_network (now : Nat) (address network : String)
    (dbUp : Bool) (s : Store)
    (h1 : pyLower network ≠ "celo") (h2 : pyLower network ≠ "fuse") :
    (apiAutoClaimSchedule now address network dbUp s).2 = s ∧
    (apiAutoClaimSchedule now address network dbUp s).1 ≠ AutoClaimScheduleResult.enabled := by
  have hc : (pyLower network == "celo") = false := by simp [h1]
  have hf : (pyLower network == "fuse") = false := by simp [h2]
  by_cases haddr : (pyIsEmpty (pyLower address) || !(pyStartsWith (pyLower address) "0x")) = true
  · constructor <;> simp [apiAutoClaimSchedule, haddr]
  · constructor <;> simp [apiAutoClaimSchedule, haddr, bne, hc, hf]

/-- Witness for C7 at the spec's example input `("0xabc", "ethereum")`. -/
theorem C7_rejected_network_witness :
    pyLower "ethereum" ≠ "celo" ∧ pyLower "ethereum" ≠ "fuse" ∧
    (apiAutoClaimSchedule 0 "0xabc" "ethereum" true emptyStore).2 = emptyStore ∧
    (apiAutoClaimSchedule 0 "0xabc" "ethereum" true emptyStore).1 ≠
      AutoClaimScheduleResult.enabled :=
  ⟨by decide, by decide,
   (C7_rejected_network 0 "0xabc" "ethereum" true emptyStore (by decide) (by decide)).1,
   (C7_rejected_network 0 "0xabc" "ethereum" true emptyStore (by decide) (by decide)).2⟩

/-- Claim C10: `markPermanent` and `registerSchedule` reject an address that
is empty or lacks the `0x` lead (after lowercasing) before any store access,
leaving the store untouched, while `isDisabled` accepts any non-empty
address with no format requirement. -/
theorem C10_address_format_gate (now : Nat) (address action network : String)
    (dbUp : Bool) (s : Store) :
    (pyIsEmpty (pyLower address) = true ∨ pyStartsWith (pyLower address) "0x" = false →
      apiPermanentVerified now address action dbUp s = (PermanentVerifiedResult.invalidAddress, s) ∧
      apiAutoClaimSchedule now address network dbUp s = (AutoClaimScheduleResult.invalidAddress, s)) ∧
    (pyIsEmpty (pyLower address) = false →
      apiCheckKeyStatus address true s =
        CheckKeyStatusResult.statusOf (s.disabled_keys.any (dkKeyed (pyLower address))) (pyLower address)) := by
  constructor
  · intro hbad
    have hcond : (pyIsEmpty (pyLower address) || !(pyStartsWith (pyLower address) "0x")) = true := by
      rcases hbad with hb | hb <;> simp [hb]
    constructor
    · unfold apiPermanentVerified
      rw [if_pos hcond]
    · unfold apiAutoClaimSchedule
      rw [if_pos hcond]
  · intro hok
    unfold apiCheckKeyStatus
    rw [if_neg (by simp [hok])]
    rfl

/-- Witness for C10: the prefix-free address `zzz` is rejected by both
gated-format endpoints, while `isDisabled` happily answers for it. -/
theorem C10_address_format_gate_witness :
    (apiPermanentVerified 0 "zzz" "add" true emptyStore = (PermanentVerifiedResult.invalidAddress, emptyStore) ∧
     apiAutoClaimSchedule 0 "zzz" "celo" true emptyStore = (AutoClaimScheduleResult.invalidAddress, emptyStore)) ∧
    apiCheckKeyStatus "zzz" true emptyStore = CheckKeyStatusResult.statusOf false "zzz" := by
  refine ⟨(C10_address_format_gate 0 "zzz" "add" "celo" true emptyStore).1 (Or.inr (by decide)), ?_⟩
  have h := (C10_address_format_gate 0 "zzz" "add" "celo" true emptyStore).2 (by decide)
  rw [h]
  decide

/-- After inserting a disabled marker for `addr`, a marker for `addr` is
present. -/
lemma any_insertDisabledIfAbsent (addr reason : String) (l : List DisabledKeyRow) :
    (insertDisabledIfAbsent addr reason l).any (dkKeyed addr) = true := by
  unfold insertDisabledIfAbsent
  split
  next h => exact h
  next h => simp [List.any_append, dkKeyed]

/-- Inserting a disabled marker that is already present changes nothing. -/
lemma insertDisabledIfAbsent_of_any (addr reason : String) (l : List DisabledKeyRow)
    (h : l.any (dkKeyed addr) = true) :
    insertDisabledIfAbsent addr reason l = l := by
  unfold insertDisabledIfAbsent
  rw [if_pos h]

/-- After deleting every row matching a predicate, none matches it. -/
lemma any_filter_not {α : Type} (p : α → Bool) (l : List α) :
    (l.filter (fun r => !(p r))).any p = false := by
  rw [Bool.eq_false_iff]
  intro h
  obtain ⟨x, hx, hpx⟩ := List.any_eq_true.mp h
  have := (List.mem_filter.mp hx).2
  simp [hpx] at this

/-- Unfolding of `/api/toggle-key-status` for action `disable` on a
non-empty address with the store reachable. -/
lemma apiToggleKeyStatus_disable_eq (address : String) (s : Store)
    (haddr : pyIsEmpty (pyLower address) = false) :
    apiToggleKeyStatus address "disable" true s =
      (ToggleKeyStatusResult.toggled "disabled" (pyLower address),
       { s with disabled_keys :=
          insertDisabledIfAbsent (pyLower address) "Disabled by user" s.disabled_keys }) := by
  have h1 : pyLower "disable" = "disable" := by decide
  have h2 : (("disable" : String) != "enable") = true := by decide
  have h3 : (("disable" : String) != "disable") = false := by decide
  have h4 : (("disable" : String) == "disable") = true := by decide
  simp [apiToggleKeyStatus, haddr, h1, h2, h3, h4]

/-- Unfolding of `/api/toggle-key-status` for action `enable` on a
non-empty address with the store reachable. -/
lemma apiToggleKeyStatus_enable_eq (address : String) (s : Store)
    (haddr : pyIsEmpty (pyLower address) = false) :
    apiToggleKeyStatus address "enable" true s =
      (ToggleKeyStatusResult.toggled "enabled" (pyLower address),
       { s with disabled_keys :=
          s.disabled_keys.filter (fun r => !(dkKeyed (pyLower address) r)) }) := by
  have h1 : pyLower "enable" = "enable" := by decide
  have h2 : (("enable" : String) != "enable") = false := by decide
  have h3 : (("enable" : String) == "disable") = false := by decide
  simp [apiToggleKeyStatus, haddr, h1, h2, h3]

/-- Unfolding of `/api/check-key-status` on a non-empty address with the
store reachable. -/
lemma apiCheckKeyStatus_eq (address : String) (s : Store)
    (haddr : pyIsEmpty (pyLower address) = false) :
    apiCheckKeyStatus address true s =
      CheckKeyStatusResult.statusOf (s.disabled_keys.any (dkKeyed (pyLower address)))
        (pyLower address) := by
  simp [apiCheckKeyStatus, haddr]

/-- Claim C8: for a non-empty address, `disable` then `isDisabled` answers
true; `enable` then `isDisabled` answers false; a second `disable` is a
no-op on the store and still succeeds; and `enable` on an address with no
marker succeeds and leaves the store exactly as it was. -/
theorem C8_disable_enable_round_trip (address : String) (s : Store)
    (haddr : pyIsEmpty (pyLower address) = false) :
    apiCheckKeyStatus address true (apiToggleKeyStatus address "disable" true s).2 =
      CheckKeyStatusResult.statusOf true (pyLower address) ∧
    apiCheckKeyStatus address true (apiToggleKeyStatus address "enable" true s).2 =
      CheckKeyStatusResult.statusOf false (pyLower address) ∧
    apiToggleKeyStatus address "disable" true (apiToggleKeyStatus address "disable" true s).2 =
      (ToggleKeyStatusResult.toggled "disabled" (pyLower address),
       (apiToggleKeyStatus address "disable" true s).2) ∧
    ((∀ r ∈ s.disabled_keys, dkKeyed (pyLower address) r = false) →
      apiToggleKeyStatus address "enable" true s =
        (ToggleKeyStatusResult.toggled "enabled" (pyLower address), s)) := by
  refine ⟨?_, ?_, ?_, ?_⟩
  · rw [apiToggleKeyStatus_disable_eq address s haddr, apiCheckKeyStatus_eq address _ haddr,
      any_insertDisabledIfAbsent]
  · rw [apiToggleKeyStatus_enable_eq address s haddr, apiCheckKeyStatus_eq address _ haddr]
    rw [any_filter_not]
  · rw [apiToggleKeyStatus_disable_eq address s haddr,
      apiToggleKeyStatus_disable_eq address _ haddr]
    rw [insertDisabledIfAbsent_of_any _ _ _ (any_insertDisabledIfAbsent _ _ _)]
  · intro hnone
    rw [apiToggleKeyStatus_enable_eq address s haddr]
    have : s.disabled_keys.filter (fun r => !(dkKeyed (pyLower address) r)) = s.disabled_keys :=
      List.filter_eq_self.mpr (fun r hr => by rw [hnone r hr]; rfl)
    rw [this]

/-- Witness for C8 at the concrete address `0xAbC` on the empty store. -/
theorem C8_disable_enable_round_trip_witness :
    apiCheckKeyStatus "0xAbC" true (apiToggleKeyStatus "0xAbC" "disable" true emptyStore).2 =
      CheckKeyStatusResult.statusOf true "0xabc" ∧
    apiCheckKeyStatus "0xAbC" true (apiToggleKeyStatus "0xAbC" "enable" true emptyStore).2 =
      CheckKeyStatusResult.statusOf false "0xabc" ∧
    apiToggleKeyStatus "0xAbC" "enable" true emptyStore =
      (ToggleKeyStatusResult.toggled "enabled" "0xabc", emptyStore) := by
  have h := C8_disable_enable_round_trip "0xAbC" emptyStore (by decide)
  have hlow : pyLower "0xAbC" = "0xabc" := by decide
  refine ⟨?_, ?_, ?_⟩
  · have := h.1; rwa [hlow] at this
  · have := h.2.1; rwa [hlow] at this
  · have := h.2.2.2 (fun r hr => absurd hr (List.not_mem_nil r))
    rwa [hlow] at this

/-- The row the schedule handler upserts: `enabled = True`,
`last_claim = now`, `next_claim_time = now + nextClaimDelta`
(lines 250-256). -/
def scheduleRow (now : Nat) (addr net : String) : AutoClaimRow :=
  ⟨addr, net, true, now, now + nextClaimDelta⟩

/-- The conflict-branch update of the `auto_claim_schedule` upsert keeps
the natural key (address, network) of every row. -/
lemma acsKeyed_update (a n a2 n2 : String) (en : Bool) (t : Nat) (r : AutoClaimRow) :
    acsKeyed a2 n2 (if acsKeyed a n r then { r with enabled := en, next_claim_time := t } else r) =
      acsKeyed a2 n2 r := by
  split <;> rfl

/-- An `auto_claim_schedule` upsert leaves exactly one row with the upsert's
natural key, provided the key was unique before (the composite primary key
of the table). -/
lemma countP_upsertACS (a n : String) (en : Bool) (lc t : Nat) (l : List AutoClaimRow)
    (h : l.countP (acsKeyed a n) ≤ 1) :
    (upsertAutoClaimSchedule ⟨a, n, en, lc, t⟩ l).countP (acsKeyed a n) = 1 := by
  unfold upsertAutoClaimSchedule
  split
  next hany =>
    rw [List.countP_map,
      List.countP_congr (fun x _ => by
        rw [Function.comp_apply, acsKeyed_update])]
    have hpos : 0 < l.countP (acsKeyed a n) :=
      List.countP_pos_iff.mpr (List.any_eq_true.mp hany)
    omega
  next hany =>
    rw [List.countP_append]
    have h0 : l.countP (acsKeyed a n) = 0 := by
      rw [List.countP_eq_zero]
      intro x hx hpx
      exact hany (List.any_eq_true.mpr ⟨x, hx, hpx⟩)
    simp [h0, acsKeyed]

/-- Any row carrying the upsert's natural key after an `auto_claim_schedule`
upsert has the upserted `enabled` and `next_claim_time`. -/
lemma mem_upsertACS_updated (a n : String) (en : Bool) (lc t : Nat) (l : List AutoClaimRow)
    (r : AutoClaimRow) (hr : r ∈ upsertAutoClaimSchedule ⟨a, n, en, lc, t⟩ l)
    (hkey : acsKeyed a n r = true) :
    r.enabled = en ∧ r.next_claim_time = t := by
  unfold upsertAutoClaimSchedule at hr
  split at hr
  next hany =>
    obtain ⟨r2, hr2, heq⟩ := List.mem_map.mp hr
    by_cases hk : acsKeyed a n r2 = true
    · rw [if_pos hk] at heq
      subst heq
      exact ⟨rfl, rfl⟩
    · rw [if_neg hk] at heq
      subst heq
      exact absurd hkey hk
  next hany =>
    rcases List.mem_append.mp hr with h2 | h2
    · exact absurd (List.any_eq_true.mpr ⟨r, h2, hkey⟩) hany
    · have : r = ⟨a, n, en, lc, t⟩ := by simpa using h2
      subst this
      exact ⟨rfl, rfl⟩

/-- The conflict branch of the `auto_claim_schedule` upsert maps an
existing row with the key to its update, leaving `last_claim` as it was. -/
lemma mem_upsertACS_of_key (a n : String) (en : Bool) (lc t : Nat) (l : List AutoClaimRow)
    (r : AutoClaimRow) (hr : r ∈ l) (hkey : acsKeyed a n r = true) :
    { r with enabled := en, next_claim_time := t } ∈
      upsertAutoClaimSchedule ⟨a, n, en, lc, t⟩ l := by
  unfold upsertAutoClaimSchedule
  rw [if_pos (List.any_eq_true.mpr ⟨r, hr, hkey⟩)]
  exact List.mem_map.mpr ⟨r, hr, by rw [if_pos hkey]⟩

/-- Rows that do not carry the upsert's natural key survive an
`auto_claim_schedule` upsert untouched. -/
lemma mem_upsertACS_of_not_key (a n : String) (en : Bool) (lc t : Nat) (l : List AutoClaimRow)
    (r : AutoClaimRow) (hr : r ∈ l) (hkey : acsKeyed a n r = false) :
    r ∈ upsertAutoClaimSchedule ⟨a, n, en, lc, t⟩ l := by
  unfold upsertAutoClaimSchedule
  split
  · exact List.mem_map.mpr ⟨r, hr, by simp [hkey]⟩
  · exact List.mem_append.mpr (Or.inl hr)

/-- When no row carries the upsert's natural key, the `auto_claim_schedule`
upsert appends the full fresh row (all of its fields, `last_claim`
included). -/
lemma mem_upsertACS_fresh (a n : String) (en : Bool) (lc t : Nat) (l : List AutoClaimRow)
    (hnone : ∀ r ∈ l, acsKeyed a n r = false) :
    (⟨a, n, en, lc, t⟩ : AutoClaimRow) ∈ upsertAutoClaimSchedule ⟨a, n, en, lc, t⟩ l := by
  have hany : l.any (acsKeyed a n) = false := by
    rw [Bool.eq_false_iff]
    intro h
    obtain ⟨x, hx, hpx⟩ := List.any_eq_true.mp h
    rw [hnone x hx] at hpx
    exact Bool.false_ne_true hpx
  unfold upsertAutoClaimSchedule
  simp [hany]

/-- Unfolding of `/api/auto-claim-schedule` on a valid address and network
with the store reachable. -/
lemma apiAutoClaimSchedule_valid_eq (now : Nat) (address network : String) (s : Store)
    (haddr : (pyIsEmpty (pyLower address) || !(pyStartsWith (pyLower address) "0x")) = false)
    (hnet : (pyLower network != "celo" && pyLower network != "fuse") = false) :
    apiAutoClaimSchedule now address network true s =
      (AutoClaimScheduleResult.enabled,
       { s with auto_claim_schedule := upsertAutoClaimSchedule (scheduleRow now (pyLower address) (pyLower network)) s.auto_claim_schedule }) := by
  simp [apiAutoClaimSchedule, scheduleRow, haddr, hnet]

/-- Claim C2, counterexample: register `("0xabc","celo")` at time 5, then
again at time 100; the stored row's `last_claim` is still 5, not the second
call's current time 100: the upsert does NOT set `lastClaim` on conflict. -/
theorem C2_lastClaim_counterexample :
    ((apiAutoClaimSchedule 100 "0xabc" "celo" true
        (apiAutoClaimSchedule 5 "0xabc" "celo" true emptyStore).2).2.auto_claim_schedule.map
      (fun r => r.last_claim)) = [5] ∧ (5 : Nat) ≠ 100 := by
  constructor
  · decide
  · decide

/-- Claim C2 as amended: a valid `registerSchedule` succeeds, touches no
other table, and on conflict overwrites only `enabled` and
`next_claim_time` of the row with the call's key — `last_claim` and every
other stored field of that row keep their previous values, and rows with a
different key are untouched; when no row with the key exists, the fresh
insert stores the full row with `enabled = true`, `last_claim = now` and
`next_claim_time = now + nextClaimDelta`. -/
theorem C2_upsert_conflict_frame (now : Nat) (address network : String) (s : Store)
    (h1 : pyIsEmpty (pyLower address) = false)
    (h2 : pyStartsWith (pyLower address) "0x" = true)
    (hnet : pyLower network = "celo" ∨ pyLower network = "fuse") :
    (apiAutoClaimSchedule now address network true s).1 = AutoClaimScheduleResult.enabled ∧
    (apiAutoClaimSchedule now address network true s).2.secret_keys = s.secret_keys ∧
    (apiAutoClaimSchedule now address network true s).2.permanent_verified = s.permanent_verified ∧
    (apiAutoClaimSchedule now address network true s).2.disabled_keys = s.disabled_keys ∧
    (apiAutoClaimSchedule now address network true s).2.app_settings = s.app_settings ∧
    (∀ r ∈ s.auto_claim_schedule, acsKeyed (pyLower address) (pyLower network) r = true →
      { r with enabled := true, next_claim_time := now + nextClaimDelta } ∈
        (apiAutoClaimSchedule now address network true s).2.auto_claim_schedule) ∧
    (∀ r ∈ s.auto_claim_schedule, acsKeyed (pyLower address) (pyLower network) r = false →
      r ∈ (apiAutoClaimSchedule now address network true s).2.auto_claim_schedule) ∧
    ((∀ r ∈ s.auto_claim_schedule, acsKeyed (pyLower address) (pyLower network) r = false) →
      AutoClaimRow.mk (pyLower address) (pyLower network) true now (now + nextClaimDelta) ∈
        (apiAutoClaimSchedule now address network true s).2.auto_claim_schedule) := by
  have haddr : (pyIsEmpty (pyLower address) || !(pyStartsWith (pyLower address) "0x")) = false := by
    simp [h1, h2]
  have hnet2 : (pyLower network != "celo" && pyLower network != "fuse") = false := by
    rcases hnet with h | h <;> simp [h, bne]
  rw [apiAutoClaimSchedule_valid_eq now address network s haddr hnet2]
  refine ⟨rfl, rfl, rfl, rfl, rfl, ?_, ?_, ?_⟩
  · intro r hr hkey
    exact mem_upsertACS_of_key (pyLower address) (pyLower network) true now
      (now + nextClaimDelta) s.auto_claim_schedule r hr hkey
  · intro r hr hkey
    exact mem_upsertACS_of_not_key (pyLower address) (pyLower network) true now
      (now + nextClaimDelta) s.auto_claim_schedule r hr hkey
  · intro hnone
    exact mem_upsertACS_fresh (pyLower address) (pyLower network) true now
      (now + nextClaimDelta) s.auto_claim_schedule hnone

/-- Witness for the amended C2: on a store holding a conflicting row with
`last_claim = 5`, the call at time 100 updates the row but keeps
`last_claim = 5`; on the empty store the same call freshly inserts the full
row with `last_claim = 100`. -/
theorem C2_upsert_conflict_frame_witness :
    (AutoClaimRow.mk "0xabc" "celo" true 5 (100 + nextClaimDelta)) ∈
      (apiAutoClaimSchedule 100 "0xabc" "celo" true
        { emptyStore with auto_claim_schedule :=
            [⟨"0xabc", "celo", false, 5, 10⟩] }).2.auto_claim_schedule ∧
    (AutoClaimRow.mk "0xabc" "celo" true 100 (100 + nextClaimDelta)) ∈
      (apiAutoClaimSchedule 100 "0xabc" "celo" true emptyStore).2.auto_claim_schedule := by
  constructor
  · have h := (C2_upsert_conflict_frame 100 "0xabc" "celo"
        { emptyStore with auto_claim_schedule := [⟨"0xabc", "celo", false, 5, 10⟩] }
        (by decide) (by decide) (Or.inl (by decide))).2.2.2.2.2.1
    exact h ⟨"0xabc", "celo", false, 5, 10⟩ (by simp) (by decide)
  · have h := (C2_upsert_conflict_frame 100 "0xabc" "celo" emptyStore
        (by decide) (by decide) (Or.inl (by decide))).2.2.2.2.2.2.2
    exact h (fun r hr => absurd hr (List.not_mem_nil r))

/-- Claim C6: starting from a store where the (address, network) key is
unique, two consecutive `registerSchedule` calls leave exactly one
`auto_claim_schedule` row with that key, and its `next_claim_time` is the
second call's `now` plus the fixed interval. -/
theorem C6_schedule_upsert (now1 now2 : Nat) (address network : String) (s : Store)
    (h1 : pyIsEmpty (pyLower address) = false)
    (h2 : pyStartsWith (pyLower address) "0x" = true)
    (hnet : pyLower network = "celo" ∨ pyLower network = "fuse")
    (hcount : s.auto_claim_schedule.countP (acsKeyed (pyLower address) (pyLower network)) ≤ 1) :
    (apiAutoClaimSchedule now2 address network true
        (apiAutoClaimSchedule now1 address network true s).2).2.auto_claim_schedule.countP
      (acsKeyed (pyLower address) (pyLower network)) = 1 ∧
    ∀ r ∈ (apiAutoClaimSchedule now2 address network true
        (apiAutoClaimSchedule now1 address network true s).2).2.auto_claim_schedule,
      acsKeyed (pyLower address) (pyLower network) r = true →
        r.next_claim_time = now2 + nextClaimDelta := by
  have haddr : (pyIsEmpty (pyLower address) || !(pyStartsWith (pyLower address) "0x")) = false := by
    simp [h1, h2]
  have hnet2 : (pyLower network != "celo" && pyLower network != "fuse") = false := by
    rcases hnet with h | h <;> simp [h, bne]
  rw [apiAutoClaimSchedule_valid_eq now1 address network s haddr hnet2,
    apiAutoClaimSchedule_valid_eq now2 address network _ haddr hnet2]
  have hc1 : (upsertAutoClaimSchedule (scheduleRow now1 (pyLower address) (pyLower network))
      s.auto_claim_schedule).countP (acsKeyed (pyLower address) (pyLower network)) = 1 :=
    countP_upsertACS (pyLower address) (pyLower network) true now1 (now1 + nextClaimDelta)
      s.auto_claim_schedule hcount
  constructor
  · exact countP_upsertACS (pyLower address) (pyLower network) true now2 (now2 + nextClaimDelta)
      (upsertAutoClaimSchedule (scheduleRow now1 (pyLower address) (pyLower network))
        s.auto_claim_schedule) (le_of_eq hc1)
  · intro r hr hkey
    exact (mem_upsertACS_updated (pyLower address) (pyLower network) true now2
      (now2 + nextClaimDelta)
      (upsertAutoClaimSchedule (scheduleRow now1 (pyLower address) (pyLower network))
        s.auto_claim_schedule) r hr hkey).2

/-- Witness for C6: two registrations of `("0xabc","celo")` at times 5 and
100 on the empty store. -/
theorem C6_schedule_upsert_witness :
    (apiAutoClaimSchedule 100 "0xabc" "celo" true
        (apiAutoClaimSchedule 5 "0xabc" "celo" true emptyStore).2).2.auto_claim_schedule.countP
      (acsKeyed (pyLower "0xabc") (pyLower "celo")) = 1 :=
  (C6_schedule_upsert 5 100 "0xabc" "celo" emptyStore
    (by decide) (by decide) (Or.inl (by decide)) (by decide)).1

/-- The table-level invariant the `address` primary key of
`permanent_verified` enforces: at most one row per address. -/
def AtMostOnePerAddress (l : List PermanentVerifiedRow) : Prop :=
  ∀ a : String, l.countP (pvKeyed a) ≤ 1

/-- The conflict-branch update of the `permanent_verified` upsert keeps the
address of every row. -/
lemma pvKeyed_update (addr a : String) (now : Nat) (r : PermanentVerifiedRow) :
    pvKeyed a (if pvKeyed addr r then { r with verified_at := now, expires_at := none } else r) =
      pvKeyed a r := by
  split <;> rfl

/-- A `permanent_verified` upsert preserves the one-row-per-address
invariant. -/
lemma atMostOne_upsertPV (addr : String) (now : Nat) (l : List PermanentVerifiedRow)
    (hinv : AtMostOnePerAddress l) :
    AtMostOnePerAddress (upsertPermanentVerified addr now l) := by
  intro a
  unfold upsertPermanentVerified
  split
  next hany =>
    rw [List.countP_map,
      List.countP_congr (fun x _ => by
        rw [Function.comp_apply, pvKeyed_update])]
    exact hinv a
  next hany =>
    rw [List.countP_append]
    by_cases ha : a = addr
    · subst ha
      have h0 : l.countP (pvKeyed a) = 0 := by
        rw [List.countP_eq_zero]
        intro x hx hpx
        exact hany (List.any_eq_true.mpr ⟨x, hx, hpx⟩)
      simp [h0, pvKeyed]
    · have h1 : List.countP (pvKeyed a) [(⟨addr, now, none⟩ : PermanentVerifiedRow)] = 0 := by
        simp only [List.countP_cons, List.countP_nil, pvKeyed]
        have : ((addr == a) : Bool) = false := by
          simp only [beq_eq_false_iff_ne, ne_eq]
          exact fun h => ha h.symm
        simp [this]
      rw [h1]
      simpa using hinv a

/-- After a `permanent_verified` upsert there is exactly one row with the
upserted address, provided the address was unique before. -/
lemma countP_upsertPV (addr : String) (now : Nat) (l : List PermanentVerifiedRow)
    (h : l.countP (pvKeyed addr) ≤ 1) :
    (upsertPermanentVerified addr now l).countP (pvKeyed addr) = 1 := by
  unfold upsertPermanentVerified
  split
  next hany =>
    rw [List.countP_map,
      List.countP_congr (fun x _ => by
        rw [Function.comp_apply, pvKeyed_update])]
    have hpos : 0 < l.countP (pvKeyed addr) :=
      List.countP_pos_iff.mpr (List.any_eq_true.mp hany)
    omega
  next hany =>
    rw [List.countP_append]
    have h0 : l.countP (pvKeyed addr) = 0 := by
      rw [List.countP_eq_zero]
      intro x hx hpx
      exact hany (List.any_eq_true.mpr ⟨x, hx, hpx⟩)
    simp [h0, pvKeyed]

/-- Any row carrying the upserted address after a `permanent_verified`
upsert has `verified_at = now` and no expiry. -/
lemma mem_upsertPV_updated (addr : String) (now : Nat) (l : List PermanentVerifiedRow)
    (r : PermanentVerifiedRow) (hr : r ∈ upsertPermanentVerified addr now l)
    (hkey : pvKeyed addr r = true) :
    r.verified_at = now ∧ r.expires_at = none := by
  unfold upsertPermanentVerified at hr
  split at hr
  next hany =>
    obtain ⟨r2, hr2, heq⟩ := List.mem_map.mp hr
    by_cases hk : pvKeyed addr r2 = true
    · rw [if_pos hk] at heq
      subst heq
      exact ⟨rfl, rfl⟩
    · rw [if_neg hk] at heq
      subst heq
      exact absurd hkey hk
  next hany =>
    rcases List.mem_append.mp hr with h2 | h2
    · exact absurd (List.any_eq_true.mpr ⟨r, h2, hkey⟩) hany
    · have : r = ⟨addr, now, none⟩ := by simpa using h2
      subst this
      exact ⟨rfl, rfl⟩

/-- Unfolding of `/api/permanent-verified` for action `add` on a valid
address with the store reachable. -/
lemma apiPermanentVerified_add_eq (now : Nat) (address : String) (s : Store)
    (haddr : (pyIsEmpty (pyLower address) || !(pyStartsWith (pyLower address) "0x")) = false) :
    apiPermanentVerified now address "add" true s =
      (PermanentVerifiedResult.added,
       { s with permanent_verified := upsertPermanentVerified (pyLower address) now s.permanent_verified }) := by
  have hadd : (("add" : String) == "add") = true := by decide
  simp [apiPermanentVerified, haddr, hadd]

/-- Claim C9: on a store whose `permanent_verified` table has at most one
row per address (its primary key), `markPermanent` succeeds, keeps that
invariant, leaves exactly one row for the marked address, and that row has
`verified_at` equal to the call's current time and no expiry — so a
repeated call refreshes the timestamp and never creates a second row. -/
theorem C9_markPermanent_upsert (now : Nat) (address : String) (s : Store)
    (h1 : pyIsEmpty (pyLower address) = false)
    (h2 : pyStartsWith (pyLower address) "0x" = true)
    (hinv : AtMostOnePerAddress s.permanent_verified) :
    (apiPermanentVerified now address "add" true s).1 = PermanentVerifiedResult.added ∧
    AtMostOnePerAddress (apiPermanentVerified now address "add" true s).2.permanent_verified ∧
    (apiPermanentVerified now address "add" true s).2.permanent_verified.countP
      (pvKeyed (pyLower address)) = 1 ∧
    ∀ r ∈ (apiPermanentVerified now address "add" true s).2.permanent_verified,
      pvKeyed (pyLower address) r = true → r.verified_at = now ∧ r.expires_at = none := by
  have haddr : (pyIsEmpty (pyLower address) || !(pyStartsWith (pyLower address) "0x")) = false := by
    simp [h1, h2]
  rw [apiPermanentVerified_add_eq now address s haddr]
  refine ⟨rfl, ?_, ?_, ?_⟩
  · exact atMostOne_upsertPV (pyLower address) now s.permanent_verified hinv
  · exact countP_upsertPV (pyLower address) now s.permanent_verified (hinv (pyLower address))
  · intro r hr hkey
    exact mem_upsertPV_updated (pyLower address) now s.permanent_verified r hr hkey

/-- Witness for C9 at the concrete address `0xAbc` on the empty store. -/
theorem C9_markPermanent_upsert_witness :
    (apiPermanentVerified 7 "0xAbc" "add" true emptyStore).1 = PermanentVerifiedResult.added ∧
    (apiPermanentVerified 7 "0xAbc" "add" true emptyStore).2.permanent_verified.countP
      (pvKeyed (pyLower "0xAbc")) = 1 :=
  ⟨(C9_markPermanent_upsert 7 "0xAbc" emptyStore (by decide) (by decide)
      (fun a => by simp [emptyStore])).1,
   (C9_markPermanent_upsert 7 "0xAbc" emptyStore (by decide) (by decide)
      (fun a => by simp [emptyStore])).2.2.1⟩
